import Mathlib

/-!
Shallow embedding of `src/timesheet_app/excel_manager.py`.

The module works over openpyxl workbooks.  We model:
- a cell value as `Option CellValue` (`none` is an openpyxl `None` cell);
- a sheet as its name, a 1-indexed ragged grid of cell values (`rows`,
  where `rows[r-1][c-1]` is the value of cell `(row=r, column=c)`), and a
  number-format assignment per cell (`formats`);
- a workbook as its ordered list of sheets;
- the filesystem as a map from path strings to workbooks;
- Python `datetime` as a date triple plus time-of-day fields, and
  `timedelta(seconds=e)` as its signed number of seconds (the claims only
  exercise whole-second durations, so `elapsed_seconds` is embedded as an
  integer).

`append_time_entry` takes two extra explicit parameters that are implicit
in Python: `now` (the value `datetime.now()` would return, used only when
`finished_at is None`) and `fmtOk` (whether the underlying storage accepts
the `number_format` annotation on the duration cell; the Python code wraps
that single statement in `try/except Exception: pass`).
-/

/-- A date, as Python `datetime.date(year, month, day)`. -/
structure PyDate where
  year : Nat
  month : Nat
  day : Nat
deriving DecidableEq, Repr

/-- A timestamp, as Python `datetime.datetime`; `date` is what `.date()` returns. -/
structure PyDateTime where
  date : PyDate
  hour : Nat
  minute : Nat
  second : Nat
deriving DecidableEq, Repr

/-- A non-`None` openpyxl cell value as this module uses them: a text, a
`datetime.date`, or a `timedelta` with its signed length in seconds. -/
inductive CellValue where
  | str (s : String)
  | date (d : PyDate)
  | duration (seconds : Int)
deriving DecidableEq, Repr

/-- Zero-pad a numeral to two digits, as in Python date/timedelta formatting. -/
def pad2 (n : Nat) : String :=
  if n < 10 then "0" ++ toString n else toString n

/-- Zero-pad a numeral to four digits. -/
def pad4 (n : Nat) : String :=
  if n < 10 then "000" ++ toString n
  else if n < 100 then "00" ++ toString n
  else if n < 1000 then "0" ++ toString n
  else toString n

/-- Python `str` on a `datetime.date`: ISO `YYYY-MM-DD`. -/
def PyDate.pyStr (d : PyDate) : String :=
  pad4 d.year ++ "-" ++ pad2 d.month ++ "-" ++ pad2 d.day

/-- Python `str` on a whole-second `timedelta`: `[D day(s), ]H:MM:SS`,
with the day count floor-divided (so negative durations render as e.g.
`-1 day, 23:59:55`). -/
def timedeltaStr (secs : Int) : String :=
  let days := Int.fdiv secs 86400
  let rem := (Int.emod secs 86400).toNat
  let h := rem / 3600
  let m := rem % 3600 / 60
  let s := rem % 60
  let hms := toString h ++ ":" ++ pad2 m ++ ":" ++ pad2 s
  if days = 0 then hms
  else toString days ++ (if days = 1 ∨ days = -1 then " day, " else " days, ") ++ hms

/-- Python `str` on a cell value. -/
def CellValue.pyStr : CellValue → String
  | .str s => s
  | .date d => d.pyStr
  | .duration n => timedeltaStr n

/-- Python `str.strip()`: drop leading and trailing whitespace.  Written by
structural recursion on the character list, so that it evaluates inside
proofs (the library's `String.trim` is opaque to the kernel). -/
def pyStrip (s : String) : String :=
  ⟨((s.data.dropWhile Char.isWhitespace).reverse.dropWhile Char.isWhitespace).reverse⟩

/-- One worksheet: its name, its cell values (row-major, 1-indexed through
`cellValue`), and the `number_format` annotations that were explicitly set. -/
structure Sheet where
  name : String
  rows : List (List (Option CellValue))
  formats : List ((Nat × Nat) × String)
deriving DecidableEq, Repr

/-- The value of cell `(row=r, column=c)` (1-indexed); cells outside the
stored grid read as `None`, as openpyxl reports for never-written cells. -/
def Sheet.cellValue (s : Sheet) (r c : Nat) : Option CellValue :=
  ((((s.rows[r - 1]?).getD [])[c - 1]?).getD none)

/-- openpyxl `sheet.max_row`: the extent of the stored grid, but at least 1
(an empty sheet still reports `max_row = 1`). -/
def Sheet.maxRow (s : Sheet) : Nat :=
  max 1 s.rows.length

/-- Extend the row list with empty rows so that row `r` exists. -/
def padRows (rows : List (List (Option CellValue))) (r : Nat) :
    List (List (Option CellValue)) :=
  rows ++ List.replicate (r - rows.length) []

/-- Extend one row with `None` cells so that column `c` exists. -/
def padCells (row : List (Option CellValue)) (c : Nat) : List (Option CellValue) :=
  row ++ List.replicate (c - row.length) none

/-- `sheet.cell(row=r, column=c).value = v`: grow the grid as needed and
store `v`; name and formats are untouched. -/
def Sheet.setCell (s : Sheet) (r c : Nat) (v : CellValue) : Sheet :=
  let rows := padRows s.rows r
  let row := padCells ((rows[r - 1]?).getD []) c
  { s with rows := rows.set (r - 1) (row.set (c - 1) (some v)) }

/-- `cell.number_format = fmt` on cell `(r, c)`. -/
def Sheet.setFormat (s : Sheet) (r c : Nat) (fmt : String) : Sheet :=
  { s with formats := ((r, c), fmt) :: s.formats.filter (fun p => p.1 ≠ (r, c)) }

/-- The `number_format` stored for cell `(r, c)`, if one was set. -/
def Sheet.getFormat (s : Sheet) (r c : Nat) : Option String :=
  (s.formats.find? (fun p => p.1 = (r, c))).map (·.2)

/-- `ws.append(values)`: add one row after the current last row. -/
def Sheet.appendRow (s : Sheet) (vals : List (Option CellValue)) : Sheet :=
  { s with rows := s.rows ++ [vals] }

/-- A workbook: its sheets in order.  openpyxl enforces unique sheet names. -/
structure Workbook where
  sheets : List Sheet
deriving DecidableEq, Repr

/-- `workbook.sheetnames`. -/
def Workbook.sheetnames (wb : Workbook) : List String :=
  wb.sheets.map (·.name)

/-- `name in workbook` combined with `workbook[name]`: the sheet of that
name, if present. -/
def Workbook.getSheet (wb : Workbook) (n : String) : Option Sheet :=
  wb.sheets.find? (fun s => s.name = n)

/-- Replace the sheet named `n` (sheet names are unique in openpyxl). -/
def Workbook.setSheet (wb : Workbook) (n : String) (s : Sheet) : Workbook :=
  { sheets := wb.sheets.map (fun t => if t.name = n then s else t) }

/-- A fresh sheet with no cells and no formats. -/
def emptySheet (n : String) : Sheet :=
  { name := n, rows := [], formats := [] }

/-- `Workbook()`: a new in-memory workbook holding the auto-created default
sheet (named `Sheet`), which is `wb.active`. -/
def Workbook.new : Workbook :=
  { sheets := [emptySheet "Sheet"] }

/-- `wb.remove(wb.active)` right after creation: drop the default sheet. -/
def Workbook.removeActive (wb : Workbook) : Workbook :=
  { sheets := wb.sheets.drop 1 }

/-- The filesystem: which workbook (if any) each path holds. -/
def FileSystem : Type :=
  String → Option Workbook

/-- The errors the module raises itself: `FileNotFoundError` and
`ExcelStructureError`, each with its message. -/
inductive ExcelError where
  | fileNotFound (msg : String)
  | structureError (msg : String)
deriving DecidableEq, Repr

/-- Sheet name constant `REFERENCE_SHEET`. -/
def REFERENCE_SHEET : String := "Справочник"

/-- Sheet name constant `TIMESHEET_SHEET`. -/
def TIMESHEET_SHEET : String := "Учет времени"

/-- The `ExcelStructureError` message: the f-string
`f"Workbook must contain sheet given. Found: joined names"` of the source. -/
def structureMsg (expected : String) (names : List String) : String :=
  "Workbook must contain sheet '" ++ expected ++
    ("'. Found: " ++ String.intercalate ", " names)

/-- The `FileNotFoundError` message `f"Excel file not found: given path"`. -/
def notFoundMsg (path : String) : String :=
  "Excel file not found: " ++ path

/-- One step of `_normalise`: skip `None`, convert to text and strip, skip
empties and values already collected. -/
def normaliseStep (items : List String) (value : Option CellValue) : List String :=
  match value with
  | none => items
  | some v =>
    let text := pyStrip v.pyStr
    if text ≠ "" ∧ text ∉ items then items ++ [text] else items

/-- `_normalise(values)` from the source. -/
def normalise (values : List (Option CellValue)) : List String :=
  values.foldl normaliseStep []

/-- The first cell of a row, `None` when the row is shorter (the source pads
with `row + (None, None)` before destructuring). -/
def rowCell (row : List (Option CellValue)) (i : Nat) : Option CellValue :=
  (row.get? i).getD none

/-- `load_reference_data(path)`: the two normalised columns of the reference
sheet, or the raised error. -/
def load_reference_data (fs : FileSystem) (path : String) :
    Except ExcelError (List String × List String) :=
  match fs path with
  | none => .error (.fileNotFound (notFoundMsg path))
  | some workbook =>
    match workbook.getSheet REFERENCE_SHEET with
    | none => .error (.structureError (structureMsg REFERENCE_SHEET workbook.sheetnames))
    | some sheet =>
      let dataRows := sheet.rows.drop 1
      let projects := dataRows.map (fun row => rowCell row 0)
      let work_types := dataRows.map (fun row => rowCell row 1)
      .ok (normalise projects, normalise work_types)

/-- The inner `is_empty_row(r)` of `append_time_entry`: all of the first
four cells of row `r` hold no value. -/
def is_empty_row (sheet : Sheet) (r : Nat) : Bool :=
  (sheet.cellValue r 1).isNone && (sheet.cellValue r 2).isNone &&
    (sheet.cellValue r 3).isNone && (sheet.cellValue r 4).isNone

/-- The free-row scan of `append_time_entry`: the first `r` in
`range(2, last + 1)` with `is_empty_row(r)`, else `last + 1`. -/
def targetRow (sheet : Sheet) : Nat :=
  match (List.range' 2 (sheet.maxRow + 1 - 2)).find? (fun r => is_empty_row sheet r) with
  | some r => r
  | none => sheet.maxRow + 1

/-- The four cell writes of `append_time_entry` at the target row, followed
by the best-effort `number_format` annotation (applied only when the storage
accepts it, i.e. when `fmtOk`). -/
def writeEntry (sheet : Sheet) (r : Nat) (d : PyDate) (project work_type : String)
    (durationSeconds : Int) (fmtOk : Bool) : Sheet :=
  let s1 := sheet.setCell r 1 (.date d)
  let s2 := s1.setCell r 2 (.str project)
  let s3 := s2.setCell r 3 (.str work_type)
  let s4 := s3.setCell r 4 (.duration durationSeconds)
  if fmtOk then s4.setFormat r 4 "[h]:mm:ss" else s4

/-- `append_time_entry(path, project=..., work_type=..., elapsed_seconds=...,
finished_at=...)`: returns the raised error or `()`, together with the
filesystem after `workbook.save` (unchanged on error). -/
def append_time_entry (fs : FileSystem) (path : String) (project work_type : String)
    (elapsed_seconds : Int) (finished_at : Option PyDateTime) (now : PyDateTime)
    (fmtOk : Bool) : Except ExcelError Unit × FileSystem :=
  match fs path with
  | none => (.error (.fileNotFound (notFoundMsg path)), fs)
  | some workbook =>
    match workbook.getSheet TIMESHEET_SHEET with
    | none =>
      (.error (.structureError (structureMsg TIMESHEET_SHEET workbook.sheetnames)), fs)
    | some sheet =>
      let timestamp := finished_at.getD now
      let target := targetRow sheet
      let sheet2 := writeEntry sheet target timestamp.date project work_type
        elapsed_seconds fmtOk
      let wb2 := workbook.setSheet TIMESHEET_SHEET sheet2
      (.ok (), fun q => if q = path then some wb2 else fs q)

/-- `create_template(path)`: build the two-sheet workbook and save it. -/
def create_template (fs : FileSystem) (path : String) : FileSystem :=
  let wb := Workbook.new.removeActive
  let ws_ref := (emptySheet REFERENCE_SHEET).appendRow
    [some (.str "Проект"), some (.str "Вид работ")]
  let ws_ts := (emptySheet TIMESHEET_SHEET).appendRow
    [some (.str "Дата"), some (.str "Проект"), some (.str "Вид работ"),
     some (.str "Длительность")]
  let wb := { wb with sheets := wb.sheets ++ [ws_ref, ws_ts] }
  fun q => if q = path then some wb else fs q

/-! ## The normalization algorithm as the spec states it -/

/-- The spec's normalization loop, stated its way: walk the values keeping
an output list; skip null values, convert non-null values to text and strip
whitespace, skip values that become empty after stripping, and skip values
already collected, preserving order of first occurrence. -/
def specCollectFrom : List (Option CellValue) → List String → List String
  | [], collected => collected
  | none :: rest, collected => specCollectFrom rest collected
  | some v :: rest, collected =>
    let text := pyStrip v.pyStr
    if text = "" then specCollectFrom rest collected
    else if text ∈ collected then specCollectFrom rest collected
    else specCollectFrom rest (collected ++ [text])

/-- The spec's normalization of one column, started from an empty output. -/
def specCollect (values : List (Option CellValue)) : List String :=
  specCollectFrom values []

/-! ## Concrete sample documents used by witnesses and counterexamples -/

/-- Shorthand for a text cell. -/
def strCell (x : String) : Option CellValue :=
  some (.str x)

/-- A reference sheet whose rows are exactly the four rows of the spec's
dedup-and-order example. -/
def exampleRefSheet : Sheet :=
  { name := REFERENCE_SHEET,
    rows := [[strCell "A", strCell "X"], [strCell "B", none],
             [strCell "A", strCell "Y"], [strCell " A ", strCell "X"]],
    formats := [] }

/-- A file holding only `exampleRefSheet`. -/
def exampleRefFs : FileSystem :=
  fun p => if p = "book.xlsx" then some { sheets := [exampleRefSheet] } else none

/-- The same reference data placed where the code reads it from: in the data
rows below a header row. -/
def exampleRefSheetH : Sheet :=
  { name := REFERENCE_SHEET,
    rows := [strCell "Проект", strCell "Вид работ"] :: exampleRefSheet.rows,
    formats := [] }

/-- A file holding only `exampleRefSheetH`. -/
def exampleRefFsH : FileSystem :=
  fun p => if p = "book.xlsx" then some { sheets := [exampleRefSheetH] } else none

/-- A timesheet sheet with a header, occupied rows 2 and 4 and a fully empty
row 3. -/
def sampleTsSheet : Sheet :=
  { name := TIMESHEET_SHEET,
    rows := [[strCell "Дата", strCell "Проект", strCell "Вид работ",
              strCell "Длительность"],
             [strCell "d1", strCell "p1", strCell "w1", strCell "t1"],
             [none, none, none, none],
             [strCell "d2", strCell "p2", strCell "w2", strCell "t2"]],
    formats := [] }

/-- A workbook holding only `sampleTsSheet`. -/
def sampleTsWb : Workbook :=
  { sheets := [sampleTsSheet] }

/-- A file holding only `sampleTsWb`. -/
def sampleTsFs : FileSystem :=
  fun p => if p = "book.xlsx" then some sampleTsWb else none

/-- A timesheet sheet whose row 2 holds an empty string: it displays blank
but its first cell is not null. -/
def blankStrSheet : Sheet :=
  { name := TIMESHEET_SHEET,
    rows := [[strCell "Дата"], [strCell ""]],
    formats := [] }

/-- A workbook holding only `blankStrSheet`. -/
def blankStrWb : Workbook :=
  { sheets := [blankStrSheet] }

/-- A file holding only `blankStrWb`. -/
def blankStrFs : FileSystem :=
  fun p => if p = "book.xlsx" then some blankStrWb else none

/-- A workbook with neither required sheet. -/
def otherWb : Workbook :=
  { sheets := [emptySheet "Лист1"] }

/-- A file holding only `otherWb`. -/
def otherFs : FileSystem :=
  fun p => if p = "book.xlsx" then some otherWb else none

/-- An empty filesystem. -/
def emptyFs : FileSystem :=
  fun _ => none

/-- A sample clock value for `datetime.now()`. -/
def sampleNow : PyDateTime :=
  { date := { year := 2024, month := 1, day := 2 }, hour := 3, minute := 4, second := 5 }

/-- A sample explicit `finished_at`. -/
def sampleFinished : PyDateTime :=
  { date := { year := 2024, month := 5, day := 6 }, hour := 10, minute := 30, second := 0 }

/-- The reference sheet as `create_template` builds it: header only. -/
def refTemplateSheet : Sheet :=
  (emptySheet REFERENCE_SHEET).appendRow [strCell "Проект", strCell "Вид работ"]

/-- The timesheet sheet as `create_template` builds it: header only. -/
def tsTemplateSheet : Sheet :=
  (emptySheet TIMESHEET_SHEET).appendRow
    [strCell "Дата", strCell "Проект", strCell "Вид работ", strCell "Длительность"]

/-- The workbook `create_template` saves. -/
def templateWb : Workbook :=
  { sheets := [refTemplateSheet, tsTemplateSheet] }

/-! ## Helper lemmas about the grid operations -/

/-- `maxRow` is at least 1. -/
lemma one_le_maxRow (s : Sheet) : 1 ≤ s.maxRow :=
  le_max_left 1 s.rows.length

/-- Padding the row list never changes which row a lookup returns (missing
rows and padding rows both read as the empty row). -/
lemma getD_padRows (rows : List (List (Option CellValue))) (r i : Nat) :
    ((padRows rows r)[i]?).getD [] = (rows[i]?).getD [] := by
  unfold padRows
  rcases lt_or_ge i rows.length with h | h
  · rw [List.getElem?_append]
    simp [h]
  · rw [List.getElem?_eq_none h, List.getElem?_append_right h, List.getElem?_replicate]
    split <;> simp

/-- Padding one row never changes what a cell lookup reads (missing cells
and padding cells both read as `None`). -/
lemma getD_padCells (row : List (Option CellValue)) (c i : Nat) :
    (((padCells row c)[i]?).getD none) = ((row[i]?).getD none) := by
  unfold padCells
  rcases lt_or_ge i row.length with h | h
  · rw [List.getElem?_append]
    simp [h]
  · rw [List.getElem?_eq_none h, List.getElem?_append_right h, List.getElem?_replicate]
    split <;> simp

/-- The length of a padded row list is the maximum of the old length and `r`. -/
lemma padRows_length (rows : List (List (Option CellValue))) (r : Nat) :
    (padRows rows r).length = max rows.length r := by
  simp [padRows]
  omega

/-- The length of a padded row is the maximum of the old length and `c`. -/
lemma padCells_length (row : List (Option CellValue)) (c : Nat) :
    (padCells row c).length = max row.length c := by
  simp [padCells]
  omega

/-- What `setCell` does to every cell: the addressed cell now holds the new
value and every other cell is unchanged. -/
lemma cellValue_setCell (s : Sheet) (r c : Nat) (v : CellValue) (r' c' : Nat)
    (hr : 1 ≤ r) (hc : 1 ≤ c) (hr' : 1 ≤ r') (hc' : 1 ≤ c') :
    (s.setCell r c v).cellValue r' c' =
      if r' = r ∧ c' = c then some v else s.cellValue r' c' := by
  unfold Sheet.setCell Sheet.cellValue
  by_cases hrr : r' = r
  · subst hrr
    have hlen : r' - 1 < (padRows s.rows r').length := by
      rw [padRows_length]; omega
    rw [List.getElem?_set_eq_of_lt _ hlen]
    by_cases hcc : c' = c
    · subst hcc
      have hclen : c' - 1 < (padCells (((padRows s.rows r')[r' - 1]?).getD []) c').length := by
        rw [padCells_length]; omega
      simp [List.getElem?_set_eq_of_lt _ hclen]
    · have hne : c - 1 ≠ c' - 1 := by omega
      rw [Option.getD_some, List.getElem?_set_ne hne, getD_padCells, getD_padRows]
      simp [hcc]
  · have hne : r - 1 ≠ r' - 1 := by omega
    rw [List.getElem?_set_ne hne, getD_padRows]
    simp [hrr]

/-- `setCell` keeps the sheet name. -/
lemma setCell_name (s : Sheet) (r c : Nat) (v : CellValue) :
    (s.setCell r c v).name = s.name := rfl

/-- `setCell` keeps the format assignments. -/
lemma setCell_formats (s : Sheet) (r c : Nat) (v : CellValue) :
    (s.setCell r c v).formats = s.formats := rfl

/-- `setFormat` keeps the cell values. -/
lemma cellValue_setFormat (s : Sheet) (r c : Nat) (fmt : String) (r' c' : Nat) :
    (s.setFormat r c fmt).cellValue r' c' = s.cellValue r' c' := rfl

/-- `setFormat` keeps the sheet name. -/
lemma setFormat_name (s : Sheet) (r c : Nat) (fmt : String) :
    (s.setFormat r c fmt).name = s.name := rfl

/-- `setFormat` keeps the rows. -/
lemma setFormat_rows (s : Sheet) (r c : Nat) (fmt : String) :
    (s.setFormat r c fmt).rows = s.rows := rfl

/-- Filtering out one key then searching for a different key is the same as
searching the original association list. -/
lemma find?_filter_ne (l : List ((Nat × Nat) × String)) (k k' : Nat × Nat)
    (h : k' ≠ k) :
    (l.filter (fun p => p.1 ≠ k)).find? (fun p => p.1 = k') =
      l.find? (fun p => p.1 = k') := by
  rw [List.find?_filter]
  congr 1
  funext a
  by_cases ha : a.1 = k'
  · have : a.1 ≠ k := by rw [ha]; exact h
    simp [ha, this, h]
  · simp [ha]

/-- What `setFormat` does to every format assignment. -/
lemma getFormat_setFormat (s : Sheet) (r c : Nat) (fmt : String) (r' c' : Nat) :
    (s.setFormat r c fmt).getFormat r' c' =
      if r' = r ∧ c' = c then some fmt else s.getFormat r' c' := by
  unfold Sheet.setFormat Sheet.getFormat
  by_cases hc : r' = r ∧ c' = c
  · obtain ⟨h1, h2⟩ := hc
    subst h1
    subst h2
    simp [List.find?_cons]
  · rw [if_neg hc]
    have hne : ((r, c) : Nat × Nat) ≠ (r', c') := by
      intro hk
      obtain ⟨h1, h2⟩ := Prod.mk.injEq .. ▸ hk
      exact hc ⟨h1.symm, h2.symm⟩
    have hdec : (decide (((r, c) : Nat × Nat) = (r', c'))) = false := by
      simp [hne]
    simp only [List.find?_cons, hdec]
    rw [find?_filter_ne _ _ _ (fun hk => hne hk.symm)]

/-- `writeEntry` keeps the sheet name. -/
lemma writeEntry_name (s : Sheet) (r : Nat) (d : PyDate) (p w : String)
    (e : Int) (fok : Bool) :
    (writeEntry s r d p w e fok).name = s.name := by
  unfold writeEntry
  split <;> rfl

/-- The cell values after `writeEntry`: the four cells of the target row
hold the written values and every other cell is unchanged. -/
lemma cellValue_writeEntry (s : Sheet) (r : Nat) (d : PyDate) (p w : String)
    (e : Int) (fok : Bool) (r' c' : Nat) (hr : 1 ≤ r) (hr' : 1 ≤ r') (hc' : 1 ≤ c') :
    (writeEntry s r d p w e fok).cellValue r' c' =
      if r' = r ∧ c' = 4 then some (.duration e)
      else if r' = r ∧ c' = 3 then some (.str w)
      else if r' = r ∧ c' = 2 then some (.str p)
      else if r' = r ∧ c' = 1 then some (.date d)
      else s.cellValue r' c' := by
  unfold writeEntry
  have h4 := cellValue_setCell (((s.setCell r 1 (.date d)).setCell r 2 (.str p)).setCell
    r 3 (.str w)) r 4 (.duration e) r' c' hr (by omega) hr' hc'
  have h3 := cellValue_setCell ((s.setCell r 1 (.date d)).setCell r 2 (.str p))
    r 3 (.str w) r' c' hr (by omega) hr' hc'
  have h2 := cellValue_setCell (s.setCell r 1 (.date d)) r 2 (.str p) r' c'
    hr (by omega) hr' hc'
  have h1 := cellValue_setCell s r 1 (.date d) r' c' hr (by omega) hr' hc'
  split
  · simp only [cellValue_setFormat, h4, h3, h2, h1]
  · simp only [h4, h3, h2, h1]

/-- `writeEntry` changes no format assignment except (when the storage
accepts the annotation) the one on the duration cell of the target row. -/
lemma getFormat_writeEntry (s : Sheet) (r : Nat) (d : PyDate) (p w : String)
    (e : Int) (fok : Bool) (r' c' : Nat) :
    (writeEntry s r d p w e fok).getFormat r' c' =
      if fok ∧ r' = r ∧ c' = 4 then some "[h]:mm:ss" else s.getFormat r' c' := by
  unfold writeEntry
  have hbase : ∀ t : Sheet, ∀ a b : Nat, ∀ v : CellValue,
      (t.setCell a b v).getFormat r' c' = t.getFormat r' c' := by
    intro t a b v
    unfold Sheet.getFormat
    rw [setCell_formats]
  cases fok with
  | false => simp [hbase]
  | true => simp [getFormat_setFormat, hbase]

/-- `writeEntry` stores the same cell values whether or not the storage
accepts the format annotation. -/
lemma writeEntry_rows_format_indep (s : Sheet) (r : Nat) (d : PyDate)
    (p w : String) (e : Int) :
    (writeEntry s r d p w e false).rows = (writeEntry s r d p w e true).rows := by
  unfold writeEntry
  simp [Sheet.setFormat]

/-- When the format annotation fails, `writeEntry` leaves the format
assignments exactly as they were. -/
lemma writeEntry_formats_false (s : Sheet) (r : Nat) (d : PyDate)
    (p w : String) (e : Int) :
    (writeEntry s r d p w e false).formats = s.formats := by
  unfold writeEntry
  simp [setCell_formats]

/-! ## The free-row scan -/

/-- A successful `find?` over `range' a n` returns the least element of
`[a, a + n)` satisfying the predicate. -/
lemma find?_range'_some (p : Nat → Bool) (a n r : Nat)
    (h : (List.range' a n).find? p = some r) :
    a ≤ r ∧ r < a + n ∧ p r = true ∧ ∀ j, a ≤ j → j < r → p j = false := by
  induction n generalizing a with
  | zero => simp at h
  | succ n ih =>
    rw [List.range'_succ] at h
    rcases hpa : p a with _ | _
    · rw [List.find?_cons, hpa] at h
      obtain ⟨h1, h2, h3, h4⟩ := ih (a + 1) h
      refine ⟨by omega, by omega, h3, ?_⟩
      intro j hj1 hj2
      rcases Nat.eq_or_lt_of_le hj1 with hj | hj
      · rw [← hj]; exact hpa
      · exact h4 j hj hj2
    · rw [List.find?_cons, hpa] at h
      obtain rfl : a = r := by injection h
      exact ⟨le_refl a, by omega, hpa, fun j hj1 hj2 => absurd hj1 (by omega)⟩

/-- A failed `find?` over `range' a n`: no element of `[a, a + n)`
satisfies the predicate. -/
lemma find?_range'_none (p : Nat → Bool) (a n : Nat)
    (h : (List.range' a n).find? p = none) :
    ∀ j, a ≤ j → j < a + n → p j = false := by
  intro j hj1 hj2
  have hmem : j ∈ List.range' a n := List.mem_range'_1.mpr ⟨hj1, hj2⟩
  have := List.find?_eq_none.mp h j hmem
  simpa using this

/-- The characterization of `targetRow`: it is at least 2, at most one past
the last row, every scanned row strictly before it is occupied, and when it
lies inside `[2, maxRow]` it is a free row. -/
lemma targetRow_spec (s : Sheet) :
    2 ≤ targetRow s ∧ targetRow s ≤ s.maxRow + 1 ∧
      (∀ j, 2 ≤ j → j < targetRow s → is_empty_row s j = false) ∧
      (targetRow s ≤ s.maxRow → is_empty_row s (targetRow s) = true) := by
  have hmax := one_le_maxRow s
  rcases hfind : (List.range' 2 (s.maxRow + 1 - 2)).find?
      (fun r => is_empty_row s r) with _ | r
  · have ht : targetRow s = s.maxRow + 1 := by
      unfold targetRow
      rw [hfind]
    rw [ht]
    refine ⟨by omega, le_refl _, ?_, fun h => absurd h (by omega)⟩
    intro j hj1 hj2
    exact find?_range'_none _ 2 (s.maxRow + 1 - 2) hfind j hj1 (by omega)
  · have ht : targetRow s = r := by
      unfold targetRow
      rw [hfind]
    obtain ⟨h1, h2, h3, h4⟩ := find?_range'_some _ 2 (s.maxRow + 1 - 2) r hfind
    rw [ht]
    exact ⟨h1, by omega, fun j hj1 hj2 => h4 j hj1 hj2, fun _ => h3⟩

/-! ## Workbook lookups -/

/-- The sheet `getSheet` finds does carry the requested name. -/
lemma getSheet_name (wb : Workbook) (n : String) (s : Sheet)
    (h : wb.getSheet n = some s) : s.name = n := by
  have := List.find?_some h
  simpa using this

/-- Replacing in a sheet list the sheets named `n` by a sheet named `n`
makes the name lookup return the replacement, whenever the lookup succeeded
before. -/
lemma find?_map_replace (l : List Sheet) (n : String) (sh : Sheet)
    (hname : sh.name = n)
    (hex : ∃ t, l.find? (fun x => x.name = n) = some t) :
    (l.map (fun x => if x.name = n then sh else x)).find? (fun x => x.name = n) =
      some sh := by
  induction l with
  | nil =>
    obtain ⟨t, ht⟩ := hex
    simp at ht
  | cons hd tl ih =>
    by_cases hhd : hd.name = n
    · rw [List.map_cons, if_pos hhd, List.find?_cons]
      simp [hname]
    · have hd0 : (decide (hd.name = n)) = false := by simp [hhd]
      obtain ⟨t, ht⟩ := hex
      rw [List.find?_cons, hd0] at ht
      rw [List.map_cons, if_neg hhd, List.find?_cons, hd0]
      exact ih ⟨t, ht⟩

/-- Replacing the sheet named `n` by a sheet still named `n` makes `getSheet n`
return the replacement, whenever a sheet named `n` existed. -/
lemma getSheet_setSheet (wb : Workbook) (n : String) (s t : Sheet)
    (hname : s.name = n) (hex : wb.getSheet n = some t) :
    (wb.setSheet n s).getSheet n = some s := by
  unfold Workbook.getSheet at hex
  unfold Workbook.getSheet Workbook.setSheet
  exact find?_map_replace wb.sheets n s hname ⟨t, hex⟩

/-- Sheets not named `n` are carried over by `setSheet` unchanged. -/
lemma setSheet_mem_of_ne (wb : Workbook) (n : String) (s x : Sheet)
    (hx : x ∈ wb.sheets) (hne : x.name ≠ n) :
    x ∈ (wb.setSheet n s).sheets := by
  unfold Workbook.setSheet
  have := List.mem_map_of_mem (fun t => if t.name = n then s else t) hx
  simpa [if_neg hne] using this

/-! ## Unfolding the three operations under their preconditions -/

/-- `load_reference_data` on a missing file raises `FileNotFoundError`. -/
lemma load_reference_data_not_found (fs : FileSystem) (path : String)
    (hfs : fs path = none) :
    load_reference_data fs path = .error (.fileNotFound (notFoundMsg path)) := by
  unfold load_reference_data
  rw [hfs]

/-- `load_reference_data` on a workbook without the reference sheet raises
`ExcelStructureError`. -/
lemma load_reference_data_no_sheet (fs : FileSystem) (path : String)
    (wb : Workbook) (hfs : fs path = some wb)
    (hsheet : wb.getSheet REFERENCE_SHEET = none) :
    load_reference_data fs path =
      .error (.structureError (structureMsg REFERENCE_SHEET wb.sheetnames)) := by
  unfold load_reference_data
  rw [hfs]
  simp only [hsheet]

/-- `load_reference_data` under its preconditions: the two columns of the
data rows, each run through `_normalise`. -/
lemma load_reference_data_ok (fs : FileSystem) (path : String)
    (wb : Workbook) (sheet : Sheet) (hfs : fs path = some wb)
    (hsheet : wb.getSheet REFERENCE_SHEET = some sheet) :
    load_reference_data fs path =
      .ok (normalise ((sheet.rows.drop 1).map (fun row => rowCell row 0)),
           normalise ((sheet.rows.drop 1).map (fun row => rowCell row 1))) := by
  unfold load_reference_data
  rw [hfs]
  simp only [hsheet]

/-- `append_time_entry` on a missing file raises `FileNotFoundError` and
leaves the filesystem untouched. -/
lemma append_time_entry_not_found (fs : FileSystem) (path : String)
    (p w : String) (e : Int) (f : Option PyDateTime) (now : PyDateTime)
    (fok : Bool) (hfs : fs path = none) :
    append_time_entry fs path p w e f now fok =
      (.error (.fileNotFound (notFoundMsg path)), fs) := by
  unfold append_time_entry
  rw [hfs]

/-- `append_time_entry` on a workbook without the timesheet sheet raises
`ExcelStructureError` and leaves the filesystem untouched. -/
lemma append_time_entry_no_sheet (fs : FileSystem) (path : String)
    (wb : Workbook) (p w : String) (e : Int) (f : Option PyDateTime)
    (now : PyDateTime) (fok : Bool) (hfs : fs path = some wb)
    (hsheet : wb.getSheet TIMESHEET_SHEET = none) :
    append_time_entry fs path p w e f now fok =
      (.error (.structureError (structureMsg TIMESHEET_SHEET wb.sheetnames)), fs) := by
  unfold append_time_entry
  rw [hfs]
  simp only [hsheet]

/-- `append_time_entry` under its preconditions: success, and the saved file
holds the workbook whose timesheet sheet took the four writes at the target
row. -/
lemma append_time_entry_ok (fs : FileSystem) (path : String) (wb : Workbook)
    (sheet : Sheet) (p w : String) (e : Int) (f : Option PyDateTime)
    (now : PyDateTime) (fok : Bool) (hfs : fs path = some wb)
    (hsheet : wb.getSheet TIMESHEET_SHEET = some sheet) :
    append_time_entry fs path p w e f now fok =
      (.ok (), fun q => if q = path then
          some (wb.setSheet TIMESHEET_SHEET
            (writeEntry sheet (targetRow sheet) ((f.getD now).date) p w e fok))
        else fs q) := by
  unfold append_time_entry
  rw [hfs]
  simp only [hsheet]

/-! ## Lemmas about the normalization -/

/-- `_normalise` on a non-null head: append the stripped text when it is
new and non-empty. -/
lemma normaliseStep_some (items : List String) (v : CellValue) :
    normaliseStep items (some v) =
      if pyStrip v.pyStr ≠ "" ∧ pyStrip v.pyStr ∉ items
      then items ++ [pyStrip v.pyStr] else items := rfl

/-- The spec's loop on a non-null head, unfolded. -/
lemma specCollectFrom_cons_some (rest : List (Option CellValue))
    (collected : List String) (v : CellValue) :
    specCollectFrom (some v :: rest) collected =
      if pyStrip v.pyStr = "" then specCollectFrom rest collected
      else if pyStrip v.pyStr ∈ collected then specCollectFrom rest collected
      else specCollectFrom rest (collected ++ [pyStrip v.pyStr]) := rfl

/-- The source's `_normalise` fold computes exactly the spec's loop, from
any starting output list. -/
lemma foldl_normaliseStep_eq (values : List (Option CellValue))
    (acc : List String) :
    values.foldl normaliseStep acc = specCollectFrom values acc := by
  induction values generalizing acc with
  | nil => rfl
  | cons v rest ih =>
    rcases v with _ | v
    · rw [List.foldl_cons]
      exact ih acc
    · rw [List.foldl_cons, normaliseStep_some, specCollectFrom_cons_some]
      by_cases h1 : pyStrip v.pyStr = ""
      · rw [if_pos h1, if_neg (by simp [h1])]
        exact ih acc
      · by_cases h2 : pyStrip v.pyStr ∈ acc
        · rw [if_neg h1, if_pos h2, if_neg (by simp [h2])]
          exact ih acc
        · rw [if_neg h1, if_neg h2, if_pos ⟨h1, h2⟩]
          exact ih (acc ++ [pyStrip v.pyStr])

/-- `_normalise` is the spec's normalization. -/
lemma normalise_eq_specCollect (values : List (Option CellValue)) :
    normalise values = specCollect values :=
  foldl_normaliseStep_eq values []

/-- The spec's loop keeps the output free of duplicates. -/
lemma specCollectFrom_nodup (values : List (Option CellValue))
    (acc : List String) (hacc : acc.Nodup) :
    (specCollectFrom values acc).Nodup := by
  induction values generalizing acc with
  | nil => exact hacc
  | cons v rest ih =>
    rcases v with _ | v
    · exact ih acc hacc
    · unfold specCollectFrom
      by_cases h1 : pyStrip v.pyStr = ""
      · rw [if_pos h1]
        exact ih acc hacc
      · by_cases h2 : pyStrip v.pyStr ∈ acc
        · rw [if_neg h1, if_pos h2]
          exact ih acc hacc
        · rw [if_neg h1, if_neg h2]
          refine ih _ ?_
          simp [List.nodup_append, hacc, h2]

/-- The spec's loop keeps the output free of empty strings. -/
lemma specCollectFrom_ne_empty (values : List (Option CellValue))
    (acc : List String) (hacc : ∀ x ∈ acc, x ≠ "") :
    ∀ x ∈ specCollectFrom values acc, x ≠ "" := by
  induction values generalizing acc with
  | nil => exact hacc
  | cons v rest ih =>
    rcases v with _ | v
    · exact ih acc hacc
    · unfold specCollectFrom
      by_cases h1 : pyStrip v.pyStr = ""
      · rw [if_pos h1]
        exact ih acc hacc
      · by_cases h2 : pyStrip v.pyStr ∈ acc
        · rw [if_neg h1, if_pos h2]
          exact ih acc hacc
        · rw [if_neg h1, if_neg h2]
          refine ih _ ?_
          intro x hx
          rcases List.mem_append.mp hx with hx | hx
          · exact hacc x hx
          · rw [List.mem_singleton.mp hx]
            exact h1

/-- What `create_template` leaves at the target path. -/
lemma create_template_at (fs : FileSystem) (path : String) :
    create_template fs path path = some templateWb := by
  unfold create_template templateWb refTemplateSheet tsTemplateSheet strCell
  simp [Workbook.new, Workbook.removeActive, emptySheet]

/-- The template workbook exposes its timesheet sheet under its name. -/
lemma templateWb_getSheet_ts :
    templateWb.getSheet TIMESHEET_SHEET = some tsTemplateSheet := by
  decide

/-- The free-row scan of the freshly built timesheet sheet picks row 2. -/
lemma targetRow_tsTemplateSheet : targetRow tsTemplateSheet = 2 := by
  decide

/-! ## The claims -/

/-- C5: for every path that does not reference an existing file, both
`load_reference_data` and `append_time_entry` raise `FileNotFoundError`
before touching any document, and the filesystem is unchanged. -/
theorem C5_missing_file_not_found (fs : FileSystem) (path : String)
    (p w : String) (e : Int) (f : Option PyDateTime) (now : PyDateTime)
    (fok : Bool) (hfs : fs path = none) :
    load_reference_data fs path = .error (.fileNotFound (notFoundMsg path)) ∧
    append_time_entry fs path p w e f now fok =
      (.error (.fileNotFound (notFoundMsg path)), fs) :=
  ⟨load_reference_data_not_found fs path hfs,
   append_time_entry_not_found fs path p w e f now fok hfs⟩

/-- Witness for C5 at a concrete empty filesystem. -/
theorem C5_missing_file_not_found_witness :
    load_reference_data emptyFs "missing.xlsx" =
      .error (.fileNotFound (notFoundMsg "missing.xlsx")) ∧
    append_time_entry emptyFs "missing.xlsx" "P" "W" 10 none sampleNow true =
      (.error (.fileNotFound (notFoundMsg "missing.xlsx")), emptyFs) :=
  C5_missing_file_not_found emptyFs "missing.xlsx" "P" "W" 10 none sampleNow true rfl

/-- C4: on an existing workbook that lacks the sheet an operation requires,
the operation raises `ExcelStructureError`; the message carries the expected
sheet name and the joined list of the names actually present, and the append
case leaves the filesystem unchanged. -/
theorem C4_missing_sheet_structure_error (fs : FileSystem) (path : String)
    (wb : Workbook) (p w : String) (e : Int) (f : Option PyDateTime)
    (now : PyDateTime) (fok : Bool) (hfs : fs path = some wb) :
    (wb.getSheet REFERENCE_SHEET = none →
      load_reference_data fs path =
        .error (.structureError (structureMsg REFERENCE_SHEET wb.sheetnames))) ∧
    (wb.getSheet TIMESHEET_SHEET = none →
      append_time_entry fs path p w e f now fok =
        (.error (.structureError (structureMsg TIMESHEET_SHEET wb.sheetnames)), fs)) ∧
    (∀ expected names, ∃ pre post,
      structureMsg expected names = pre ++ expected ++ post ∧
      post = "'. Found: " ++ String.intercalate ", " names) := by
  refine ⟨?_, ?_, ?_⟩
  · intro hnone
    exact load_reference_data_no_sheet fs path wb hfs hnone
  · intro hnone
    exact append_time_entry_no_sheet fs path wb p w e f now fok hfs hnone
  · intro expected names
    exact ⟨"Workbook must contain sheet '",
      "'. Found: " ++ String.intercalate ", " names, rfl, rfl⟩

/-- Witness for C4 at a concrete workbook holding neither required sheet. -/
theorem C4_missing_sheet_structure_error_witness :
    (otherWb.getSheet REFERENCE_SHEET = none →
      load_reference_data otherFs "book.xlsx" =
        .error (.structureError (structureMsg REFERENCE_SHEET otherWb.sheetnames))) ∧
    (otherWb.getSheet TIMESHEET_SHEET = none →
      append_time_entry otherFs "book.xlsx" "P" "W" 10 none sampleNow true =
        (.error (.structureError (structureMsg TIMESHEET_SHEET otherWb.sheetnames)),
          otherFs)) ∧
    (∀ expected names, ∃ pre post,
      structureMsg expected names = pre ++ expected ++ post ∧
      post = "'. Found: " ++ String.intercalate ", " names) :=
  C4_missing_sheet_structure_error otherFs "book.xlsx" otherWb "P" "W" 10 none
    sampleNow true rfl

/-- C3: `create_template` writes a workbook whose sheets are exactly the
reference sheet then the timesheet sheet, each holding exactly its single
header row. -/
theorem C3_create_template_shape (fs : FileSystem) (path : String) :
    ∃ wb : Workbook, create_template fs path path = some wb ∧
      wb.sheetnames = [REFERENCE_SHEET, TIMESHEET_SHEET] ∧
      wb.sheets.length = 2 ∧
      ∀ s ∈ wb.sheets, s.rows.length = 1 := by
  refine ⟨templateWb, create_template_at fs path, by decide, by decide, ?_⟩
  intro s hs
  have : s = refTemplateSheet ∨ s = tsTemplateSheet := by
    simpa [templateWb] using hs
  rcases this with rfl | rfl <;> rfl

/-- C1: under the preconditions of `append_time_entry`, the target row is
the first row of `[2, max_row]` whose four leading cells are all null, or
`max_row + 1` when no such row exists; row 1 is never chosen, no occupied
row before the target is chosen, and the saved workbook is the input with
exactly that row of the timesheet sheet written. -/
theorem C1_append_target_row (fs : FileSystem) (path : String) (wb : Workbook)
    (sheet : Sheet) (p w : String) (e : Int) (f : Option PyDateTime)
    (now : PyDateTime) (fok : Bool) (hfs : fs path = some wb)
    (hsheet : wb.getSheet TIMESHEET_SHEET = some sheet) :
    2 ≤ targetRow sheet ∧
    targetRow sheet ≤ sheet.maxRow + 1 ∧
    (∀ j, 2 ≤ j → j < targetRow sheet → is_empty_row sheet j = false) ∧
    (targetRow sheet ≤ sheet.maxRow → is_empty_row sheet (targetRow sheet) = true) ∧
    ((∀ j, 2 ≤ j → j ≤ sheet.maxRow → is_empty_row sheet j = false) →
      targetRow sheet = sheet.maxRow + 1) ∧
    append_time_entry fs path p w e f now fok =
      (.ok (), fun q => if q = path then
          some (wb.setSheet TIMESHEET_SHEET
            (writeEntry sheet (targetRow sheet) ((f.getD now).date) p w e fok))
        else fs q) := by
  obtain ⟨h1, h2, h3, h4⟩ := targetRow_spec sheet
  refine ⟨h1, h2, h3, h4, ?_, ?_⟩
  · intro hall
    by_contra hne
    have hle : targetRow sheet ≤ sheet.maxRow := by omega
    have htrue := h4 hle
    rw [hall (targetRow sheet) h1 hle] at htrue
    exact Bool.noConfusion htrue
  · exact append_time_entry_ok fs path wb sheet p w e f now fok hfs hsheet

/-- Witness for C1 at a concrete file whose timesheet sheet has rows 2 and 4
occupied and row 3 free. -/
theorem C1_append_target_row_witness :
    2 ≤ targetRow sampleTsSheet ∧
    targetRow sampleTsSheet ≤ sampleTsSheet.maxRow + 1 ∧
    (∀ j, 2 ≤ j → j < targetRow sampleTsSheet →
      is_empty_row sampleTsSheet j = false) ∧
    (targetRow sampleTsSheet ≤ sampleTsSheet.maxRow →
      is_empty_row sampleTsSheet (targetRow sampleTsSheet) = true) ∧
    ((∀ j, 2 ≤ j → j ≤ sampleTsSheet.maxRow →
      is_empty_row sampleTsSheet j = false) →
      targetRow sampleTsSheet = sampleTsSheet.maxRow + 1) ∧
    append_time_entry sampleTsFs "book.xlsx" "P1" "W1" 3725
        (some sampleFinished) sampleNow true =
      (.ok (), fun q => if q = "book.xlsx" then
          some (sampleTsWb.setSheet TIMESHEET_SHEET
            (writeEntry sampleTsSheet (targetRow sampleTsSheet)
              (((some sampleFinished).getD sampleNow).date) "P1" "W1" 3725 true))
        else sampleTsFs q) :=
  C1_append_target_row sampleTsFs "book.xlsx" sampleTsWb sampleTsSheet "P1" "W1"
    3725 (some sampleFinished) sampleNow true rfl rfl

/-- C10: a row of the scanned range any of whose first four cells holds a
value — the empty string included — is not free, and the free-row scan never
selects it. -/
theorem C10_non_null_row_is_occupied (sheet : Sheet) (r c : Nat) (v : CellValue)
    (hr2 : 2 ≤ r) (hrl : r ≤ sheet.maxRow) (hc1 : 1 ≤ c) (hc4 : c ≤ 4)
    (hv : sheet.cellValue r c = some v) :
    is_empty_row sheet r = false ∧ targetRow sheet ≠ r := by
  have hempty : is_empty_row sheet r = false := by
    unfold is_empty_row
    interval_cases c <;> simp [hv]
  refine ⟨hempty, ?_⟩
  intro heq
  obtain ⟨h1, h2, h3, h4⟩ := targetRow_spec sheet
  have htrue := h4 (by rw [heq]; exact hrl)
  rw [heq, hempty] at htrue
  exact Bool.noConfusion htrue

/-- Witness for C10 at a concrete sheet whose row 2 holds an empty string in
its first column. -/
theorem C10_non_null_row_is_occupied_witness :
    is_empty_row blankStrSheet 2 = false ∧ targetRow blankStrSheet ≠ 2 :=
  C10_non_null_row_is_occupied blankStrSheet 2 1 (.str "") (by decide)
    (by decide) (by decide) (by decide) (by decide)

/-- C2, counterexample: feeding the claim's four example rows to
`load_reference_data` as the reference sheet contents — its stated
algorithm skips the first of them as the header — returns
`(["B", "A"], ["Y", "X"])`, not the claimed `(["A", "B"], ["X", "Y"])`. -/
theorem C2_example_counterexample :
    load_reference_data exampleRefFs "book.xlsx" =
      .ok (["B", "A"], ["Y", "X"]) ∧
    (((["B", "A"], ["Y", "X"]) : List String × List String) ≠
      ((["A", "B"], ["X", "Y"]) : List String × List String)) :=
  ⟨rfl, by decide⟩

/-- C2, amended: `load_reference_data` computes per column exactly the
spec's normalization — first row skipped, first two cells read with missing
cells as nulls, nulls skipped, texts stripped, empties skipped, duplicates
skipped in order of first appearance — so each output is duplicate-free and
free of empty strings; and the example's four rows, placed as the data rows
below the header, yield `(["A", "B"], ["X", "Y"])`. -/
theorem C2_load_reference_normalisation (fs : FileSystem) (path : String)
    (wb : Workbook) (sheet : Sheet) (hfs : fs path = some wb)
    (hsheet : wb.getSheet REFERENCE_SHEET = some sheet) :
    load_reference_data fs path =
      .ok (specCollect ((sheet.rows.drop 1).map (fun row => rowCell row 0)),
           specCollect ((sheet.rows.drop 1).map (fun row => rowCell row 1))) ∧
    (∀ values : List (Option CellValue),
      (specCollect values).Nodup ∧ ∀ x ∈ specCollect values, x ≠ "") ∧
    load_reference_data exampleRefFsH "book.xlsx" =
      .ok (["A", "B"], ["X", "Y"]) := by
  refine ⟨?_, ?_, rfl⟩
  · rw [load_reference_data_ok fs path wb sheet hfs hsheet,
      normalise_eq_specCollect, normalise_eq_specCollect]
  · intro values
    exact ⟨specCollectFrom_nodup values [] (by simp),
      specCollectFrom_ne_empty values [] (by simp)⟩

/-- Witness for C2 at the concrete header-plus-example-rows file. -/
theorem C2_load_reference_normalisation_witness :
    load_reference_data exampleRefFsH "book.xlsx" =
      .ok (specCollect ((exampleRefSheetH.rows.drop 1).map (fun row => rowCell row 0)),
           specCollect ((exampleRefSheetH.rows.drop 1).map (fun row => rowCell row 1))) ∧
    (∀ values : List (Option CellValue),
      (specCollect values).Nodup ∧ ∀ x ∈ specCollect values, x ≠ "") ∧
    load_reference_data exampleRefFsH "book.xlsx" =
      .ok (["A", "B"], ["X", "Y"]) :=
  C2_load_reference_normalisation exampleRefFsH "book.xlsx"
    { sheets := [exampleRefSheetH] } exampleRefSheetH rfl rfl

/-- C6: after `create_template` then `append_time_entry` with project `P1`,
work type `W1` and 3725 elapsed seconds, row 2 of the timesheet sheet holds
the date of the supplied — or, when omitted, the defaulted — `finished_at`,
the two texts, and a duration of 1:02:05. -/
theorem C6_round_trip (fs : FileSystem) (path : String) (f : Option PyDateTime)
    (now : PyDateTime) (fok : Bool) :
    (append_time_entry (create_template fs path) path "P1" "W1" 3725 f now fok).1
      = .ok () ∧
    ∃ wb sheet,
      (append_time_entry (create_template fs path) path "P1" "W1" 3725 f now fok).2
          path = some wb ∧
      wb.getSheet TIMESHEET_SHEET = some sheet ∧
      sheet.cellValue 2 1 = some (.date ((f.getD now).date)) ∧
      sheet.cellValue 2 2 = some (.str "P1") ∧
      sheet.cellValue 2 3 = some (.str "W1") ∧
      sheet.cellValue 2 4 = some (.duration (1 * 3600 + 2 * 60 + 5)) := by
  have h3 := append_time_entry_ok (create_template fs path) path templateWb
    tsTemplateSheet "P1" "W1" 3725 f now fok (create_template_at fs path)
    templateWb_getSheet_ts
  rw [targetRow_tsTemplateSheet] at h3
  refine ⟨by rw [h3], ?_⟩
  refine ⟨templateWb.setSheet TIMESHEET_SHEET
      (writeEntry tsTemplateSheet 2 ((f.getD now).date) "P1" "W1" 3725 fok),
    writeEntry tsTemplateSheet 2 ((f.getD now).date) "P1" "W1" 3725 fok,
    ?_, ?_, ?_, ?_, ?_, ?_⟩
  · rw [h3]
    simp
  · exact getSheet_setSheet templateWb TIMESHEET_SHEET _ tsTemplateSheet
      (by rw [writeEntry_name]; rfl) templateWb_getSheet_ts
  · rw [cellValue_writeEntry _ _ _ _ _ _ _ _ _ (by omega) (by omega) (by omega)]
    simp
  · rw [cellValue_writeEntry _ _ _ _ _ _ _ _ _ (by omega) (by omega) (by omega)]
    simp
  · rw [cellValue_writeEntry _ _ _ _ _ _ _ _ _ (by omega) (by omega) (by omega)]
    simp
  · rw [cellValue_writeEntry _ _ _ _ _ _ _ _ _ (by omega) (by omega) (by omega)]
    simp

/-- C7: a successful append writes exactly the four cells of the target row;
every other cell value, every other format assignment, every other sheet and
every other file is left unmodified. -/
theorem C7_frame_property (fs : FileSystem) (path : String) (wb : Workbook)
    (sheet : Sheet) (p w : String) (e : Int) (f : Option PyDateTime)
    (now : PyDateTime) (fok : Bool) (hfs : fs path = some wb)
    (hsheet : wb.getSheet TIMESHEET_SHEET = some sheet) :
    (append_time_entry fs path p w e f now fok).1 = .ok () ∧
    ∃ wb2 sheet2,
      (append_time_entry fs path p w e f now fok).2 path = some wb2 ∧
      (∀ q, q ≠ path → (append_time_entry fs path p w e f now fok).2 q = fs q) ∧
      (∀ sh ∈ wb.sheets, sh.name ≠ TIMESHEET_SHEET → sh ∈ wb2.sheets) ∧
      wb2.getSheet TIMESHEET_SHEET = some sheet2 ∧
      sheet2.cellValue (targetRow sheet) 1 = some (.date ((f.getD now).date)) ∧
      sheet2.cellValue (targetRow sheet) 2 = some (.str p) ∧
      sheet2.cellValue (targetRow sheet) 3 = some (.str w) ∧
      sheet2.cellValue (targetRow sheet) 4 = some (.duration e) ∧
      (∀ r c, 1 ≤ r → 1 ≤ c → ¬(r = targetRow sheet ∧ c ≤ 4) →
        sheet2.cellValue r c = sheet.cellValue r c) ∧
      (∀ r c, ¬(r = targetRow sheet ∧ c = 4) →
        sheet2.getFormat r c = sheet.getFormat r c) := by
  have hname : sheet.name = TIMESHEET_SHEET :=
    getSheet_name wb TIMESHEET_SHEET sheet hsheet
  have h3 := append_time_entry_ok fs path wb sheet p w e f now fok hfs hsheet
  obtain ⟨ht2, _, _, _⟩ := targetRow_spec sheet
  refine ⟨by rw [h3],
    wb.setSheet TIMESHEET_SHEET
      (writeEntry sheet (targetRow sheet) ((f.getD now).date) p w e fok),
    writeEntry sheet (targetRow sheet) ((f.getD now).date) p w e fok,
    ?_, ?_, ?_, ?_, ?_, ?_, ?_, ?_, ?_, ?_⟩
  · rw [h3]
    simp
  · intro q hq
    rw [h3]
    simp [hq]
  · intro sh hsh hshn
    exact setSheet_mem_of_ne wb TIMESHEET_SHEET _ sh hsh hshn
  · exact getSheet_setSheet wb TIMESHEET_SHEET _ sheet
      (by rw [writeEntry_name]; exact hname) hsheet
  · rw [cellValue_writeEntry _ _ _ _ _ _ _ _ _ (by omega) (by omega) (by omega)]
    simp
  · rw [cellValue_writeEntry _ _ _ _ _ _ _ _ _ (by omega) (by omega) (by omega)]
    simp
  · rw [cellValue_writeEntry _ _ _ _ _ _ _ _ _ (by omega) (by omega) (by omega)]
    simp
  · rw [cellValue_writeEntry _ _ _ _ _ _ _ _ _ (by omega) (by omega) (by omega)]
    simp
  · intro r c hr hc hno
    rw [cellValue_writeEntry _ _ _ _ _ _ _ _ _ (by omega) hr hc]
    split_ifs with h1 h2 h3 h4
    · obtain ⟨ha, hb⟩ := h1
      exact absurd ⟨ha, by omega⟩ hno
    · obtain ⟨ha, hb⟩ := h2
      exact absurd ⟨ha, by omega⟩ hno
    · obtain ⟨ha, hb⟩ := h3
      exact absurd ⟨ha, by omega⟩ hno
    · obtain ⟨ha, hb⟩ := h4
      exact absurd ⟨ha, by omega⟩ hno
    · rfl
  · intro r c hno
    rw [getFormat_writeEntry]
    rw [if_neg ?_]
    rintro ⟨hf, ha, hb⟩
    exact hno ⟨ha, hb⟩

/-- Witness for C7 at a concrete file. -/
theorem C7_frame_property_witness :
    (append_time_entry sampleTsFs "book.xlsx" "P1" "W1" 3725
      (some sampleFinished) sampleNow true).1 = .ok () ∧
    ∃ wb2 sheet2,
      (append_time_entry sampleTsFs "book.xlsx" "P1" "W1" 3725
        (some sampleFinished) sampleNow true).2 "book.xlsx" = some wb2 ∧
      (∀ q, q ≠ "book.xlsx" →
        (append_time_entry sampleTsFs "book.xlsx" "P1" "W1" 3725
          (some sampleFinished) sampleNow true).2 q = sampleTsFs q) ∧
      (∀ sh ∈ sampleTsWb.sheets, sh.name ≠ TIMESHEET_SHEET → sh ∈ wb2.sheets) ∧
      wb2.getSheet TIMESHEET_SHEET = some sheet2 ∧
      sheet2.cellValue (targetRow sampleTsSheet) 1 =
        some (.date (((some sampleFinished).getD sampleNow).date)) ∧
      sheet2.cellValue (targetRow sampleTsSheet) 2 = some (.str "P1") ∧
      sheet2.cellValue (targetRow sampleTsSheet) 3 = some (.str "W1") ∧
      sheet2.cellValue (targetRow sampleTsSheet) 4 = some (.duration 3725) ∧
      (∀ r c, 1 ≤ r → 1 ≤ c → ¬(r = targetRow sampleTsSheet ∧ c ≤ 4) →
        sheet2.cellValue r c = sampleTsSheet.cellValue r c) ∧
      (∀ r c, ¬(r = targetRow sampleTsSheet ∧ c = 4) →
        sheet2.getFormat r c = sampleTsSheet.getFormat r c) :=
  C7_frame_property sampleTsFs "book.xlsx" sampleTsWb sampleTsSheet "P1" "W1"
    3725 (some sampleFinished) sampleNow true rfl rfl

/-- C8: the format annotation on the duration cell is best-effort — whether
or not the storage accepts it, the append succeeds, stores the same cell
values (the raw duration included), and a failed annotation leaves the
format assignments untouched. -/
theorem C8_format_best_effort (fs : FileSystem) (path : String) (wb : Workbook)
    (sheet : Sheet) (p w : String) (e : Int) (f : Option PyDateTime)
    (now : PyDateTime) (hfs : fs path = some wb)
    (hsheet : wb.getSheet TIMESHEET_SHEET = some sheet) :
    (append_time_entry fs path p w e f now false).1 = .ok () ∧
    (append_time_entry fs path p w e f now true).1 = .ok () ∧
    ∃ wbT wbF sheetT sheetF,
      (append_time_entry fs path p w e f now true).2 path = some wbT ∧
      (append_time_entry fs path p w e f now false).2 path = some wbF ∧
      wbT.getSheet TIMESHEET_SHEET = some sheetT ∧
      wbF.getSheet TIMESHEET_SHEET = some sheetF ∧
      sheetF.rows = sheetT.rows ∧
      sheetF.cellValue (targetRow sheet) 4 = some (.duration e) ∧
      sheetF.formats = sheet.formats := by
  have hname : sheet.name = TIMESHEET_SHEET :=
    getSheet_name wb TIMESHEET_SHEET sheet hsheet
  have hT := append_time_entry_ok fs path wb sheet p w e f now true hfs hsheet
  have hF := append_time_entry_ok fs path wb sheet p w e f now false hfs hsheet
  obtain ⟨ht2, _, _, _⟩ := targetRow_spec sheet
  refine ⟨by rw [hF], by rw [hT],
    wb.setSheet TIMESHEET_SHEET
      (writeEntry sheet (targetRow sheet) ((f.getD now).date) p w e true),
    wb.setSheet TIMESHEET_SHEET
      (writeEntry sheet (targetRow sheet) ((f.getD now).date) p w e false),
    writeEntry sheet (targetRow sheet) ((f.getD now).date) p w e true,
    writeEntry sheet (targetRow sheet) ((f.getD now).date) p w e false,
    ?_, ?_, ?_, ?_, ?_, ?_, ?_⟩
  · rw [hT]
    simp
  · rw [hF]
    simp
  · exact getSheet_setSheet wb TIMESHEET_SHEET _ sheet
      (by rw [writeEntry_name]; exact hname) hsheet
  · exact getSheet_setSheet wb TIMESHEET_SHEET _ sheet
      (by rw [writeEntry_name]; exact hname) hsheet
  · exact writeEntry_rows_format_indep sheet (targetRow sheet)
      ((f.getD now).date) p w e
  · rw [cellValue_writeEntry _ _ _ _ _ _ _ _ _ (by omega) (by omega) (by omega)]
    simp
  · exact writeEntry_formats_false sheet (targetRow sheet) ((f.getD now).date) p w e

/-- Witness for C8 at a concrete file. -/
theorem C8_format_best_effort_witness :
    (append_time_entry sampleTsFs "book.xlsx" "P1" "W1" 3725
      (some sampleFinished) sampleNow false).1 = .ok () ∧
    (append_time_entry sampleTsFs "book.xlsx" "P1" "W1" 3725
      (some sampleFinished) sampleNow true).1 = .ok () ∧
    ∃ wbT wbF sheetT sheetF,
      (append_time_entry sampleTsFs "book.xlsx" "P1" "W1" 3725
        (some sampleFinished) sampleNow true).2 "book.xlsx" = some wbT ∧
      (append_time_entry sampleTsFs "book.xlsx" "P1" "W1" 3725
        (some sampleFinished) sampleNow false).2 "book.xlsx" = some wbF ∧
      wbT.getSheet TIMESHEET_SHEET = some sheetT ∧
      wbF.getSheet TIMESHEET_SHEET = some sheetF ∧
      sheetF.rows = sheetT.rows ∧
      sheetF.cellValue (targetRow sampleTsSheet) 4 = some (.duration 3725) ∧
      sheetF.formats = sampleTsSheet.formats :=
  C8_format_best_effort sampleTsFs "book.xlsx" sampleTsWb sampleTsSheet "P1" "W1"
    3725 (some sampleFinished) sampleNow rfl rfl

/-- C9: a negative `elapsed_seconds` is not rejected — the append succeeds
and stores a duration carrying exactly that negative number of seconds. -/
theorem C9_negative_duration_pass_through (fs : FileSystem) (path : String)
    (wb : Workbook) (sheet : Sheet) (p w : String) (e : Int)
    (f : Option PyDateTime) (now : PyDateTime) (fok : Bool)
    (hfs : fs path = some wb) (hsheet : wb.getSheet TIMESHEET_SHEET = some sheet)
    (he : e < 0) :
    (append_time_entry fs path p w e f now fok).1 = .ok () ∧
    ∃ wb2 sheet2,
      (append_time_entry fs path p w e f now fok).2 path = some wb2 ∧
      wb2.getSheet TIMESHEET_SHEET = some sheet2 ∧
      sheet2.cellValue (targetRow sheet) 4 = some (.duration e) ∧
      e < 0 := by
  have hname : sheet.name = TIMESHEET_SHEET :=
    getSheet_name wb TIMESHEET_SHEET sheet hsheet
  have h3 := append_time_entry_ok fs path wb sheet p w e f now fok hfs hsheet
  obtain ⟨ht2, _, _, _⟩ := targetRow_spec sheet
  refine ⟨by rw [h3],
    wb.setSheet TIMESHEET_SHEET
      (writeEntry sheet (targetRow sheet) ((f.getD now).date) p w e fok),
    writeEntry sheet (targetRow sheet) ((f.getD now).date) p w e fok,
    ?_, ?_, ?_, he⟩
  · rw [h3]
    simp
  · exact getSheet_setSheet wb TIMESHEET_SHEET _ sheet
      (by rw [writeEntry_name]; exact hname) hsheet
  · rw [cellValue_writeEntry _ _ _ _ _ _ _ _ _ (by omega) (by omega) (by omega)]
    simp

/-- Witness for C9 at a concrete file and `elapsed_seconds = -5`. -/
theorem C9_negative_duration_pass_through_witness :
    (append_time_entry sampleTsFs "book.xlsx" "P1" "W1" (-5)
      (some sampleFinished) sampleNow true).1 = .ok () ∧
    ∃ wb2 sheet2,
      (append_time_entry sampleTsFs "book.xlsx" "P1" "W1" (-5)
        (some sampleFinished) sampleNow true).2 "book.xlsx" = some wb2 ∧
      wb2.getSheet TIMESHEET_SHEET = some sheet2 ∧
      sheet2.cellValue (targetRow sampleTsSheet) 4 = some (.duration (-5)) ∧
      (-5 : Int) < 0 :=
  C9_negative_duration_pass_through sampleTsFs "book.xlsx" sampleTsWb
    sampleTsSheet "P1" "W1" (-5) (some sampleFinished) sampleNow true rfl rfl
    (by decide)
